import Mathlib

/-!
Shallow embedding of the offline-resilience service worker
(`service-worker.js`): constants, the cache-name classifier, the versioned
blob-cache operations, the durable request store, the interceptor, the retry
engine and the lifecycle handlers, together with theorems settling the
specification claims.
-/

namespace SW

/-- The service worker version number (`const sw_version = 1`). -/
def sw_version : Nat := 1

/-- Cache name including the version number
(`const cache_name = Qweb-app-cache-$\x7bsw_version\x7dQ`). -/
def cache_name : String := "web-app-cache-" ++ toString sw_version

/-- Static files to cache (`static_files`). -/
def static_files : List String :=
  ["/sw-registration.js", "/index.html", "/about/index.html", "/manifest.json",
   "/offline.html", "/src/img/icons/manifest-icon-192.maskable.png",
   "/src/img/icons/manifest-icon-512.maskable.png"]

/-- Routes to cache (`routes`). -/
def routes : List String := ["/", "/about"]

/-- Combined list of files and routes to cache (`files_to_cache`). -/
def files_to_cache : List String := routes ++ static_files

/-- The explicit retry allow-list (`requests_to_retry_when_offline`), empty in
the source. -/
def requests_to_retry_when_offline : List String := []

/-- The URL of the offline fallback document served by the interceptor. -/
def offline_page_url : String := "/offline.html"

/-- Embeds `is_request_eligible_for_retry`: a request is retry-eligible when
its method is POST, PUT or DELETE, or its url is on the allow-list. -/
def is_request_eligible_for_retry (url method : String) : Bool :=
  (["POST", "PUT", "DELETE"]).contains method ||
    requests_to_retry_when_offline.contains url

/-- Character-list helper: does the second list start the first? -/
def starts_with : List Char → List Char → Bool
  | [], _ => true
  | _ :: _, [] => false
  | a :: as, b :: bs => a == b && starts_with as bs

/-- Character-list helper: does `hay` contain `sub` as a contiguous run?
Embeds the semantics of the JS `String.prototype.includes`. -/
def chars_contain : List Char → List Char → Bool
  | [], sub => sub.isEmpty
  | h :: t, sub => starts_with sub (h :: t) || chars_contain t sub

/-- String containment test, the model of `name.includes(cache_name)`. -/
def str_includes (hay sub : String) : Bool := chars_contain hay.toList sub.toList

/-- A cache snapshot: an ordered collection of url-keyed stored responses
(responses are opaque, modelled as naturals). -/
abbrev Snapshot := List (String × Nat)

/-- The platform cache storage: named snapshots in creation order, the model
of the global `caches` object. -/
structure CacheStorage where
  snaps : List (String × Snapshot)
deriving DecidableEq

/-- Model of `caches.keys()`: the snapshot names in order. -/
def cache_keys (cs : CacheStorage) : List String := cs.snaps.map Prod.fst

/-- Model of looking a named snapshot up without creating it. -/
def snap_find (snaps : List (String × Snapshot)) (n : String) : Option Snapshot :=
  (snaps.find? (fun p => p.1 == n)).map Prod.snd

/-- Model of `caches.open(n)`: the named snapshot, or a fresh empty one. -/
def cache_open (cs : CacheStorage) (n : String) : Snapshot :=
  (snap_find cs.snaps n).getD []

/-- The record returned by `get_cache_storage_names`. -/
structure CacheNames where
  latestCacheName : Option String
  outdatedCacheNames : List String
deriving DecidableEq

/-- Embeds `get_cache_storage_names`: the first cache name containing
`cache_name` is the latest, every name not containing it is outdated. -/
def get_cache_storage_names (cs : CacheStorage) : CacheNames :=
  { latestCacheName := (cache_keys cs).find? (fun n => str_includes n cache_name),
    outdatedCacheNames := (cache_keys cs).filter (fun n => !str_includes n cache_name) }

/-- Model of `cache.match(k)`: first stored response at the key. -/
def cache_match (c : Snapshot) (k : String) : Option Nat :=
  (c.find? (fun p => p.1 == k)).map Prod.snd

/-- Model of `cache.put(k, v)` with the platform Cache semantics: entries
matching the key are removed and the new pair is appended. -/
def cache_put (c : Snapshot) (k : String) (v : Nat) : Snapshot :=
  c.filter (fun p => !(p.1 == k)) ++ [(k, v)]

/-- The inner loop of `update_last_cache`: for each listed key, copy the
latest snapshot's response at that key into the accumulator cache. -/
def migrate_fold (latest : Snapshot) : List String → Snapshot → Snapshot
  | [], acc => acc
  | k :: ks, acc =>
      migrate_fold latest ks
        (match cache_match latest k with
         | some v => cache_put acc k v
         | none => acc)

/-- Copy every entry of the latest snapshot into an outdated one, walking the
latest snapshot's key list as the source loop does. -/
def migrate_into (latest outdated : Snapshot) : Snapshot :=
  migrate_fold latest (latest.map Prod.fst) outdated

/-- Embeds `update_last_cache`: when there is a latest cache and at least one
outdated cache, copy every latest entry into each outdated cache; otherwise
return with no change (`return null`). -/
def update_last_cache (cs : CacheStorage) : CacheStorage :=
  let names := get_cache_storage_names cs
  match names.latestCacheName with
  | none => cs
  | some ln =>
      if names.outdatedCacheNames.isEmpty then cs
      else
        let latest := cache_open cs ln
        { snaps := cs.snaps.map (fun p =>
            if names.outdatedCacheNames.contains p.1 then
              (p.1, migrate_into latest p.2)
            else p) }

/-- Embeds `activate_handler`: delete every cache whose name differs from
`cache_name` (string equality), keeping the rest. -/
def activate_handler (cs : CacheStorage) : CacheStorage :=
  { snaps := cs.snaps.filter (fun p => p.1 == cache_name) }

/-- Looking up the key just written by `cache_put` yields the new response. -/
theorem cache_match_put_self (c : Snapshot) (k : String) (v : Nat) :
    cache_match (cache_put c k v) k = some v := by
  unfold cache_put cache_match
  rw [List.find?_append]
  have h1 : (c.filter (fun p => !(p.1 == k))).find? (fun p => p.1 == k) = none := by
    rw [List.find?_eq_none]
    intro x hx
    have hx2 := (List.mem_filter.mp hx).2
    simp only [Bool.not_eq_true'] at hx2
    simp [hx2]
  simp [h1]

/-- Looking up a different key after `cache_put` is unchanged. -/
theorem cache_match_put_other (c : Snapshot) (k k' : String) (v : Nat)
    (h : k' ≠ k) : cache_match (cache_put c k v) k' = cache_match c k' := by
  unfold cache_put cache_match
  rw [List.find?_append]
  have h2 : (([(k, v)] : Snapshot)).find? (fun p => p.1 == k') = none := by
    have hkk : (k == k') = false := by
      simp only [beq_eq_false_iff_ne, ne_eq]
      exact fun hh => h hh.symm
    simp [List.find?_cons, hkk]
  rw [h2]
  have h3 : (c.filter (fun p => !(p.1 == k))).find? (fun p => p.1 == k') =
      c.find? (fun p => p.1 == k') := by
    induction c with
    | nil => rfl
    | cons p t ih =>
        by_cases hp : p.1 == k
        · have hpk : p.1 = k := by simpa using hp
          have hp' : (p.1 == k') = false := by
            simp [hpk]
            exact fun hh => h hh.symm
          simp [List.filter_cons, hp, List.find?_cons, hp', ih]
        · by_cases hq : p.1 == k'
          · simp [List.filter_cons, hp, List.find?_cons, hq]
          · simp [List.filter_cons, hp, List.find?_cons, hq, ih]
  cases h4 : c.find? (fun p => p.1 == k') with
  | none => simp [h3, h4]
  | some p => simp [h3, h4]

/-- Characterises the inner migration loop: a key found among the walked keys
with a response in the latest snapshot ends with the latest response, every
other key keeps the accumulator's response. -/
theorem migrate_fold_match (latest : Snapshot) (ks : List String)
    (acc : Snapshot) (k : String) :
    cache_match (migrate_fold latest ks acc) k =
      if k ∈ ks ∧ (cache_match latest k).isSome = true then cache_match latest k
      else cache_match acc k := by
  induction ks generalizing acc with
  | nil => simp [migrate_fold]
  | cons k0 ks ih =>
      simp only [migrate_fold]
      rw [ih]
      by_cases hmem : k ∈ ks ∧ (cache_match latest k).isSome = true
      · rw [if_pos hmem, if_pos ⟨List.mem_cons_of_mem k0 hmem.1, hmem.2⟩]
      · rw [if_neg hmem]
        by_cases hk : k = k0
        · subst hk
          cases hl : cache_match latest k with
          | some v =>
              simp only [hl]
              rw [if_pos ⟨List.mem_cons_self k ks, by simp [hl]⟩]
              exact cache_match_put_self acc k v
          | none =>
              simp only [hl]
              rw [if_neg (by simp [hl])]
        · have hcond : ¬(k ∈ k0 :: ks ∧ (cache_match latest k).isSome = true) := by
            intro hc
            rcases List.mem_cons.mp hc.1 with h | h
            · exact hk h
            · exact hmem ⟨h, hc.2⟩
          rw [if_neg hcond]
          cases hl : cache_match latest k0 with
          | some v =>
              simp only [hl]
              exact cache_match_put_other acc k0 k v hk
          | none => simp only [hl]

/-- Migrating the latest snapshot into an outdated one: every key with a
response in the latest snapshot now carries that response, other keys keep
the outdated snapshot's response. -/
theorem migrate_into_match (latest outdated : Snapshot) (k : String) :
    cache_match (migrate_into latest outdated) k =
      if (cache_match latest k).isSome = true then cache_match latest k
      else cache_match outdated k := by
  unfold migrate_into
  rw [migrate_fold_match]
  by_cases hs : (cache_match latest k).isSome = true
  · have hfind : ∃ p, latest.find? (fun p => p.1 == k) = some p := by
      cases hf : latest.find? (fun p => p.1 == k) with
      | none => simp [cache_match, hf] at hs
      | some p => exact ⟨p, rfl⟩
    rcases hfind with ⟨p, hp⟩
    have hmem : p ∈ latest := List.mem_of_find?_eq_some hp
    have hpk : p.1 = k := by simpa using List.find?_some hp
    have hkmem : k ∈ latest.map Prod.fst := hpk ▸ List.mem_map_of_mem Prod.fst hmem
    rw [if_pos ⟨hkmem, hs⟩, if_pos hs]
  · rw [if_neg (fun hc => hs hc.2), if_neg hs]

/-- The snapshot found under a name after the migration pass over a set of
names: migrated exactly when the name is in that set. -/
theorem snap_find_migrated (snaps : List (String × Snapshot)) (outs : List String)
    (g : Snapshot → Snapshot) (o : String) :
    snap_find (snaps.map (fun p => if outs.contains p.1 then (p.1, g p.2) else p)) o =
      if outs.contains o then (snap_find snaps o).map g else snap_find snaps o := by
  induction snaps with
  | nil => cases h : outs.contains o <;> simp [snap_find, h]
  | cons p t ih =>
      have hfst : (if outs.contains p.1 then (p.1, g p.2) else p).1 = p.1 := by
        cases outs.contains p.1 <;> rfl
      by_cases hb : p.1 == o
      · have hpo : p.1 = o := by simpa using hb
        simp only [snap_find, List.map_cons, List.find?_cons, hfst, hb]
        subst hpo
        cases hc : outs.contains p.1 <;> simp [hc]
      · simp only [snap_find, List.map_cons, List.find?_cons, hfst, hb]
        exact ih

/-- A name present in the storage has a snapshot. -/
theorem snap_find_isSome_of_mem (cs : CacheStorage) (o : String)
    (h : o ∈ cache_keys cs) : ∃ s, snap_find cs.snaps o = some s := by
  rcases List.mem_map.mp h with ⟨p, hp, hpo⟩
  have hsome : (cs.snaps.find? (fun q => q.1 == o)).isSome = true := by
    rw [List.find?_isSome]
    exact ⟨p, hp, by simp [hpo]⟩
  cases hf : cs.snaps.find? (fun q => q.1 == o) with
  | none => rw [hf] at hsome; simp at hsome
  | some q => exact ⟨q.2, by simp [snap_find, hf]⟩

/-- After `update_last_cache`, a name reported as outdated holds its old
snapshot migrated from the latest one. -/
theorem update_open_outdated (cs : CacheStorage) (ln : String)
    (h1 : (get_cache_storage_names cs).latestCacheName = some ln) (o : String)
    (ho : o ∈ (get_cache_storage_names cs).outdatedCacheNames) :
    cache_open (update_last_cache cs) o =
      migrate_into (cache_open cs ln) (cache_open cs o) := by
  have hne : (get_cache_storage_names cs).outdatedCacheNames.isEmpty = false := by
    cases hl : (get_cache_storage_names cs).outdatedCacheNames with
    | nil => rw [hl] at ho; cases ho
    | cons a l => simp [hl]
  simp only [update_last_cache, h1]
  rw [if_neg (by simp [hne])]
  simp only [cache_open]
  rw [snap_find_migrated]
  have hco : (get_cache_storage_names cs).outdatedCacheNames.contains o = true := by
    simpa using ho
  rw [if_pos hco]
  have homem : o ∈ cache_keys cs := by
    have hmemf := ho
    simp only [get_cache_storage_names] at hmemf
    exact List.mem_of_mem_filter hmemf
  rcases snap_find_isSome_of_mem cs o homem with ⟨s, hs⟩
  simp [hs]

/-- After `update_last_cache`, a name not reported as outdated (in particular
the latest name) keeps its snapshot unchanged. -/
theorem update_open_untouched (cs : CacheStorage) (ln : String)
    (h1 : (get_cache_storage_names cs).latestCacheName = some ln) (o : String)
    (ho : o ∉ (get_cache_storage_names cs).outdatedCacheNames) :
    cache_open (update_last_cache cs) o = cache_open cs o := by
  simp only [update_last_cache, h1]
  by_cases hne : (get_cache_storage_names cs).outdatedCacheNames.isEmpty = true
  · rw [if_pos hne]
  · rw [if_neg hne]
    simp only [cache_open]
    rw [snap_find_migrated]
    have hco : ¬((get_cache_storage_names cs).outdatedCacheNames.contains o = true) := by
      simpa using ho
    rw [if_neg hco]

/-- The latest cache name is never classified as outdated. -/
theorem latest_not_outdated (cs : CacheStorage) (ln : String)
    (h1 : (get_cache_storage_names cs).latestCacheName = some ln) :
    ln ∉ (get_cache_storage_names cs).outdatedCacheNames := by
  intro hmem
  simp only [get_cache_storage_names] at h1 hmem
  have hinc : str_includes ln cache_name = true := by simpa using List.find?_some h1
  have hninc := (List.mem_filter.mp hmem).2
  rw [hinc] at hninc
  simp at hninc

/-- A concrete storage with a current snapshot v2 holding entries A and B and
an outdated snapshot v1 holding entries A and C. -/
def demo_storage : CacheStorage :=
  { snaps := [("web-app-cache-1", [("A", 10), ("B", 20)]),
              ("web-app-cache-0", [("A", 1), ("C", 3)])] }

/-- C6: update_last_cache is a no-op when there is no current snapshot or no
outdated snapshot; otherwise it copies every entry of the current snapshot
into each outdated snapshot, overwriting existing entries at those keys,
leaves keys present only in the outdated snapshot in place, and leaves the
current snapshot itself unchanged. -/
theorem update_last_cache_spec :
    (∀ cs : CacheStorage, (get_cache_storage_names cs).latestCacheName = none →
        update_last_cache cs = cs) ∧
    (∀ cs : CacheStorage, (get_cache_storage_names cs).outdatedCacheNames = [] →
        update_last_cache cs = cs) ∧
    (∀ (cs : CacheStorage) (ln : String),
        (get_cache_storage_names cs).latestCacheName = some ln →
        (∀ o ∈ (get_cache_storage_names cs).outdatedCacheNames, ∀ k : String,
            cache_match (cache_open (update_last_cache cs) o) k =
              if (cache_match (cache_open cs ln) k).isSome = true then
                cache_match (cache_open cs ln) k
              else cache_match (cache_open cs o) k) ∧
          cache_open (update_last_cache cs) ln = cache_open cs ln) := by
  refine ⟨?_, ?_, ?_⟩
  · intro cs h
    simp [update_last_cache, h]
  · intro cs h
    simp only [update_last_cache, h]
    cases hl : (get_cache_storage_names cs).latestCacheName <;> simp
  · intro cs ln h1
    constructor
    · intro o ho k
      rw [update_open_outdated cs ln h1 o ho, migrate_into_match]
    · exact update_open_untouched cs ln h1 ln (latest_not_outdated cs ln h1)

/-- C6 witness: in the concrete two-snapshot storage, after the migration the
outdated snapshot v1 serves A and B with v2's responses and keeps its own C,
while v2 is unchanged. -/
theorem update_last_cache_spec_witness :
    cache_match (cache_open (update_last_cache demo_storage) ("web-app-cache-0"))
        ("A") = some 10 ∧
      cache_match (cache_open (update_last_cache demo_storage) ("web-app-cache-0"))
        ("B") = some 20 ∧
      cache_match (cache_open (update_last_cache demo_storage) ("web-app-cache-0"))
        ("C") = some 3 ∧
      cache_open (update_last_cache demo_storage) ("web-app-cache-1") =
        [("A", 10), ("B", 20)] := by
  have h := update_last_cache_spec.2.2 demo_storage ("web-app-cache-1") (by decide)
  have ho := h.1 ("web-app-cache-0") (by decide)
  refine ⟨?_, ?_, ?_, ?_⟩
  · rw [ho ("A")]; decide
  · rw [ho ("B")]; decide
  · rw [ho ("C")]; decide
  · rw [h.2]; decide

/-- A concrete storage holding one cache whose name strictly extends the
current cache name, used to exhibit the classification mismatch. -/
def mismatch_storage : CacheStorage :=
  { snaps := [("web-app-cache-1-old", [("/", 7)])] }

/-- C8: deleteOutdated (the activate handler's cache cleanup) is idempotent,
and the surviving snapshot set is exactly the caches whose name equals the
current version's cache name. -/
theorem activate_handler_idempotent (cs : CacheStorage) :
    activate_handler (activate_handler cs) = activate_handler cs ∧
      cache_keys (activate_handler cs) =
        (cache_keys cs).filter (fun n => n == cache_name) := by
  constructor
  · simp [activate_handler, List.filter_filter]
  · simp only [activate_handler, cache_keys]
    induction cs.snaps with
    | nil => rfl
    | cons p rest ih =>
        by_cases h : p.1 == cache_name
        · simp [List.filter_cons, h, ih]
        · simp only [List.filter_cons, h] at ih ⊢
          simpa [h] using ih

/-- C10: the two cache-name functions judge currency inconsistently: the
storage `mismatch_storage` holds a single cache whose name contains the
current cache name as a substring, so `get_cache_storage_names` reports it as
the latest cache, yet the activate handler deletes it because its name is not
string-equal to the current cache name. -/
theorem latest_cache_deleted_on_activate :
    (get_cache_storage_names mismatch_storage).latestCacheName =
        some ("web-app-cache-1-old") ∧
      (get_cache_storage_names mismatch_storage).outdatedCacheNames = [] ∧
      activate_handler mismatch_storage = { snaps := [] } := by
  refine ⟨?_, ?_, ?_⟩ <;> decide

/-- The fields of an intercepted request the worker reads: url, method, an
opaque, already-materialised body (optional), serialisable headers, mode and
credentials policy. -/
structure RequestInfo where
  url : String
  method : String
  body : Option Nat
  headers : List (String × String)
  mode : String
  credentials : String
deriving DecidableEq

/-- A QueuedRequest record as persisted by `store_request`: the capture
timestamp is the key, the remaining fields reproduce the request. -/
structure QueuedRequest where
  timestamp : Nat
  url : String
  method : String
  body : Option Nat
  headers : List (String × String)
  mode : String
  credentials : String
deriving DecidableEq

/-- Embeds `serialize_headers`: headers become a plain key-to-value mapping;
the model already keeps them as such, so this is the identity. -/
def serialize_headers (hs : List (String × String)) : List (String × String) := hs

/-- The record `store_request` builds for a request captured at `now`. In the
source the body is first materialised from any stream and the field is
omitted when the body is absent, which the optional field captures. -/
def queued_record (now : Nat) (r : RequestInfo) : QueuedRequest :=
  { timestamp := now, url := r.url, method := r.method, body := r.body,
    headers := serialize_headers r.headers, mode := r.mode,
    credentials := r.credentials }

/-- Embeds `store_request` on a reliable record store: the record is appended
under the capture timestamp (`store.add`). -/
def store_request (now : Nat) (r : RequestInfo) (st : List QueuedRequest) :
    List QueuedRequest :=
  st ++ [queued_record now r]

/-- A network response as the worker observes it: the redirected flag, the
HTTP status and an opaque body. -/
structure WebResponse where
  redirected : Bool
  status : Nat
  body : Nat
deriving DecidableEq

/-- Embeds `clean_redirect`: an equivalent response with the same body,
headers and status but without the redirected flag. -/
def clean_redirect (r : WebResponse) : WebResponse := { r with redirected := false }

/-- The settled outcome of one `fetch` call: the promise either rejects or
fulfills, possibly (in the model as in the handler's own truthiness check)
with no response value. -/
inductive FetchOutcome where
  | rejected : FetchOutcome
  | fulfilled : Option WebResponse → FetchOutcome
deriving DecidableEq

/-- Whether a settled outcome is fulfilled, the `Promise.allSettled` status
test of the retry engine. -/
def is_fulfilled : FetchOutcome → Bool
  | FetchOutcome.fulfilled _ => true
  | FetchOutcome.rejected => false

/-- What one run of the fetch handler produced: the response handed to
`respondWith` (possibly none), the request store afterwards, and whether a
live network fetch was issued. -/
structure HandlerResult where
  response : Option WebResponse
  store : List QueuedRequest
  usedNetwork : Bool
deriving DecidableEq

/-- Embeds `fetch_handler`. Inputs model the ambient world: `offline` is the
negated connectivity flag, `cacheLookup` is `caches.match(request, ...)` with
its ignore-search and ignore-vary options, `pageLookup` is `caches.match`
on a url, `net` is the settled outcome `await fetch(e.request)` would have,
`now` the capture clock and `st` the request store. The branch structure
follows the source: offline eligible requests are stored and answered with
the offline page; otherwise a cached response is returned (redirects
sanitised); otherwise the network is tried, a truthy response returned
verbatim, a falsy one falls off the end of the try block (no response), and
a thrown fetch is answered with the offline page. -/
def fetch_handler (offline : Bool) (req : RequestInfo)
    (cacheLookup : RequestInfo → Option WebResponse)
    (pageLookup : String → Option WebResponse)
    (net : FetchOutcome) (now : Nat) (st : List QueuedRequest) : HandlerResult :=
  if offline && is_request_eligible_for_retry req.url req.method then
    { response := pageLookup offline_page_url,
      store := store_request now req st, usedNetwork := false }
  else
    match cacheLookup req with
    | some r =>
        { response := some (if r.redirected then clean_redirect r else r),
          store := st, usedNetwork := false }
    | none =>
        match net with
        | FetchOutcome.rejected =>
            { response := pageLookup offline_page_url, store := st,
              usedNetwork := true }
        | FetchOutcome.fulfilled (some r) =>
            { response := some r, store := st, usedNetwork := true }
        | FetchOutcome.fulfilled none =>
            { response := none, store := st, usedNetwork := true }

/-- C1: while offline, a retry-eligible request is appended to the request
store as exactly one new record, the interceptor responds with the cached
offline fallback document, and no live network fetch is issued. -/
theorem fetch_handler_offline_eligible (req : RequestInfo)
    (cacheLookup : RequestInfo → Option WebResponse)
    (pageLookup : String → Option WebResponse)
    (net : FetchOutcome) (now : Nat) (st : List QueuedRequest)
    (helig : is_request_eligible_for_retry req.url req.method = true) :
    (fetch_handler true req cacheLookup pageLookup net now st).store =
        st ++ [queued_record now req] ∧
      (fetch_handler true req cacheLookup pageLookup net now st).response =
        pageLookup offline_page_url ∧
      (fetch_handler true req cacheLookup pageLookup net now st).usedNetwork =
        false := by
  simp [fetch_handler, helig, store_request]

/-- A concrete offline page response. -/
def demo_offline_page : WebResponse := { redirected := false, status := 200, body := 9 }

/-- A concrete POST request to /submit. -/
def demo_post : RequestInfo :=
  { url := "/submit", method := "POST", body := some 5,
    headers := [("content-type", "text/plain")], mode := "cors",
    credentials := "same-origin" }

/-- C1 witness: offline POST to /submit appends one record and returns the
offline page without touching the network. -/
theorem fetch_handler_offline_eligible_witness :
    is_request_eligible_for_retry demo_post.url demo_post.method = true ∧
      (fetch_handler true demo_post (fun _ => none)
          (fun u => if u == offline_page_url then some demo_offline_page else none)
          FetchOutcome.rejected 7 []).store = [queued_record 7 demo_post] ∧
      (fetch_handler true demo_post (fun _ => none)
          (fun u => if u == offline_page_url then some demo_offline_page else none)
          FetchOutcome.rejected 7 []).response = some demo_offline_page ∧
      (fetch_handler true demo_post (fun _ => none)
          (fun u => if u == offline_page_url then some demo_offline_page else none)
          FetchOutcome.rejected 7 []).usedNetwork = false := by
  have h := fetch_handler_offline_eligible demo_post (fun _ => none)
    (fun u => if u == offline_page_url then some demo_offline_page else none)
    FetchOutcome.rejected 7 [] (by decide)
  exact ⟨by decide, by rw [h.1]; rfl, by rw [h.2.1]; rfl, h.2.2⟩

/-- A concrete GET request used in the network-fault scenarios. -/
def demo_get : RequestInfo :=
  { url := "/data", method := "GET", body := none, headers := [],
    mode := "cors", credentials := "same-origin" }

/-- C4 counterexample: with connectivity up, no cached match, the offline
page cached, and a live fetch that fulfills with no response, the handler
responds with nothing rather than the offline fallback document. -/
theorem fetch_handler_no_response_counterexample :
    (true && is_request_eligible_for_retry demo_get.url demo_get.method) = false ∧
      ((fun (_ : RequestInfo) => (none : Option WebResponse)) demo_get) = none ∧
      ((fun (_ : String) => some demo_offline_page) offline_page_url) =
        some demo_offline_page ∧
      (fetch_handler false demo_get (fun _ => none)
          (fun _ => some demo_offline_page)
          (FetchOutcome.fulfilled none) 0 []).response = none ∧
      none ≠ some demo_offline_page := by
  exact ⟨by decide, rfl, rfl, rfl, by decide⟩

/-- C4 amended: when the offline-queue branch is not taken and the cache has
no match, a live fetch that throws is answered with the offline fallback
document, but a live fetch that fulfills with no response leaves the handler
producing no response at all. -/
theorem fetch_handler_network_fault (offline : Bool) (req : RequestInfo)
    (cacheLookup : RequestInfo → Option WebResponse)
    (pageLookup : String → Option WebResponse) (now : Nat)
    (st : List QueuedRequest)
    (hbranch : (offline && is_request_eligible_for_retry req.url req.method) = false)
    (hmiss : cacheLookup req = none) :
    (fetch_handler offline req cacheLookup pageLookup FetchOutcome.rejected
        now st).response = pageLookup offline_page_url ∧
      (fetch_handler offline req cacheLookup pageLookup
        (FetchOutcome.fulfilled none) now st).response = none := by
  constructor <;> simp [fetch_handler, hbranch, hmiss]

/-- C4 amended witness: the concrete GET request with an empty cache, a
thrown fetch is answered with the cached offline page. -/
theorem fetch_handler_network_fault_witness :
    (false && is_request_eligible_for_retry demo_get.url demo_get.method) = false ∧
      ((fun (_ : RequestInfo) => (none : Option WebResponse)) demo_get) = none ∧
      (fetch_handler false demo_get (fun _ => none)
          (fun _ => some demo_offline_page) FetchOutcome.rejected 0 []).response =
        some demo_offline_page := by
  have h := fetch_handler_network_fault false demo_get (fun _ => none)
    (fun _ => some demo_offline_page) 0 [] (by decide) rfl
  exact ⟨by decide, rfl, by rw [h.1]⟩

/-- A client as `clients.matchAll` reports it: whether this service worker
controls it. -/
structure ClientInfo where
  controlled : Bool
deriving DecidableEq

/-- Model of `clients.matchAll` with `includeUncontrolled: true`: every open
client, controlled or not, is returned. -/
def match_all_clients (clients : List ClientInfo) : List ClientInfo := clients

/-- Embeds the SKIP_WAITING case of `message_handler`: skipWaiting plus
claim are performed exactly when the matchAll result has fewer than two
clients. Returns whether activation was forced. -/
def skip_waiting_message (clients : List ClientInfo) : Bool :=
  decide ((match_all_clients clients).length < 2)

/-- The number of controlled clients among the open ones. -/
def controlled_count (clients : List ClientInfo) : Nat :=
  (clients.filter (fun c => c.controlled)).length

/-- C5 counterexample: with one controlled and one uncontrolled client open
there is at most one controlled client, yet the handler does not force
activation, because it counts every client `matchAll` returns. -/
theorem skip_waiting_counterexample :
    controlled_count
        [{ controlled := true }, { controlled := false }] ≤ 1 ∧
      skip_waiting_message
        [{ controlled := true }, { controlled := false }] = false := by
  decide

/-- C5 amended: the SKIP_WAITING handler forces immediate activation exactly
when fewer than two clients are open in total, counting uncontrolled clients
as well; consequently two or more controlled clients always block the
handoff. -/
theorem skip_waiting_spec (clients : List ClientInfo) :
    (skip_waiting_message clients = true ↔ clients.length < 2) ∧
      (2 ≤ controlled_count clients → skip_waiting_message clients = false) := by
  constructor
  · simp [skip_waiting_message, match_all_clients]
  · intro h2
    have hle : controlled_count clients ≤ clients.length := by
      unfold controlled_count
      exact List.length_filter_le (fun c => c.controlled) clients
    simp only [skip_waiting_message, match_all_clients, decide_eq_false_iff_not,
      not_lt]
    omega

/-- C5 amended witness: with two controlled clients the handler does not
force activation. -/
theorem skip_waiting_spec_witness :
    2 ≤ controlled_count [{ controlled := true }, { controlled := true }] ∧
      skip_waiting_message [{ controlled := true }, { controlled := true }] =
        false := by
  exact ⟨by decide,
    (skip_waiting_spec [{ controlled := true }, { controlled := true }]).2
      (by decide)⟩

/-- The replay request `retry_requests` reconstructs from a stored record:
same url, method, body, headers (rebuilt from their serialised form), mode
and credentials. -/
def replay_request_of (q : QueuedRequest) : RequestInfo :=
  { url := q.url, method := q.method, body := q.body,
    headers := q.headers, mode := q.mode, credentials := q.credentials }

/-- Embeds `request_store.delete(key)`: remove the records stored under the
timestamp key. -/
def delete_by_key (st : List QueuedRequest) (k : Nat) : List QueuedRequest :=
  st.filter (fun q => !(q.timestamp == k))

/-- The deletion pass of `retry_requests`: walk the settled outcomes paired
with their records and delete each fulfilled record by its timestamp key. -/
def drain_deletes :
    List (QueuedRequest × FetchOutcome) → List QueuedRequest → List QueuedRequest
  | [], st => st
  | pr :: rest, st =>
      drain_deletes rest
        (if is_fulfilled pr.2 then delete_by_key st pr.1.timestamp else st)

/-- What one drain produced: the replay requests issued and the store left
behind. -/
structure DrainResult where
  issued : List RequestInfo
  store : List QueuedRequest
deriving DecidableEq

/-- Embeds `retry_requests`: read all records, issue one replay fetch per
record, settle all outcomes jointly (`Promise.allSettled`, so one record's
rejection never aborts the others), then delete exactly the fulfilled
records by their timestamp key. The oracle `net` gives each replay's settled
outcome. -/
def retry_requests (net : RequestInfo → FetchOutcome)
    (st : List QueuedRequest) : DrainResult :=
  { issued := st.map replay_request_of,
    store := drain_deletes (st.map (fun q => (q, net (replay_request_of q)))) st }

/-- The deletion pass equals one filter: a record survives unless some
settled pair is fulfilled and carries its timestamp. -/
theorem drain_deletes_filter (ps : List (QueuedRequest × FetchOutcome))
    (s : List QueuedRequest) :
    drain_deletes ps s =
      s.filter (fun q =>
        !(ps.any (fun pr => is_fulfilled pr.2 && pr.1.timestamp == q.timestamp))) := by
  induction ps generalizing s with
  | nil => simp [drain_deletes]
  | cons pr rest ih =>
      simp only [drain_deletes]
      cases hfo : is_fulfilled pr.2 with
      | false =>
          rw [if_neg (by simp), ih]
          apply List.filter_congr
          intro q _
          simp [hfo]
      | true =>
          rw [if_pos rfl, ih]
          unfold delete_by_key
          rw [List.filter_filter]
          apply List.filter_congr
          intro q _
          by_cases hts : q.timestamp = pr.1.timestamp
          · simp [hts, hfo]
          · have h1 : (q.timestamp == pr.1.timestamp) = false := by simp [hts]
            have h2 : (pr.1.timestamp == q.timestamp) = false := by
              simp
              exact fun hh => hts hh.symm
            simp [h1, h2, hfo]

/-- With pairwise-distinct timestamp keys (the store's key invariant) the
drained store is the original store with exactly the fulfilled records
removed, the failed ones left in place. -/
theorem retry_store_eq (net : RequestInfo → FetchOutcome)
    (st : List QueuedRequest)
    (hts : (st.map QueuedRequest.timestamp).Nodup) :
    (retry_requests net st).store =
      st.filter (fun q => !is_fulfilled (net (replay_request_of q))) := by
  show drain_deletes (st.map (fun q => (q, net (replay_request_of q)))) st = _
  rw [drain_deletes_filter]
  apply List.filter_congr
  intro q hq
  have hinj := List.inj_on_of_nodup_map hts
  congr 1
  cases hf : is_fulfilled (net (replay_request_of q)) with
  | true =>
      apply List.any_eq_true.mpr
      refine ⟨(q, net (replay_request_of q)), List.mem_map_of_mem _ hq, ?_⟩
      simp [hf]
  | false =>
      apply List.any_eq_false.mpr
      intro pr hpr
      rcases List.mem_map.mp hpr with ⟨r, hr, hrq⟩
      subst hrq
      simp only [Bool.and_eq_true, not_and]
      intro hful hbeq
      have hreq : r = q := hinj hr hq (by simpa using hbeq)
      subst hreq
      rw [hf] at hful
      cases hful

/-- C2: a drain issues one replay request per queued record, reconstructing
its method, headers, body, mode and credentials; each outcome settles
independently, and exactly the records whose replay fulfilled are deleted by
their timestamp key while every failed record stays stored in place. -/
theorem retry_requests_drain (net : RequestInfo → FetchOutcome)
    (st : List QueuedRequest)
    (hts : (st.map QueuedRequest.timestamp).Nodup) :
    (retry_requests net st).issued = st.map replay_request_of ∧
      (retry_requests net st).store =
        st.filter (fun q => !is_fulfilled (net (replay_request_of q))) := by
  exact ⟨rfl, retry_store_eq net st hts⟩

/-- A queued POST record whose replay will be made to reject. -/
def rec_fail : QueuedRequest :=
  { timestamp := 1, url := "/a", method := "POST", body := some 4,
    headers := [("content-type", "text/plain")], mode := "cors",
    credentials := "same-origin" }

/-- A queued POST record whose replay will be made to succeed. -/
def rec_ok : QueuedRequest :=
  { timestamp := 2, url := "/b", method := "POST", body := none,
    headers := [], mode := "cors", credentials := "same-origin" }

/-- A replay oracle rejecting the request to /a and fulfilling all others. -/
def demo_net (r : RequestInfo) : FetchOutcome :=
  if r.url == rec_fail.url then FetchOutcome.rejected
  else FetchOutcome.fulfilled (some { redirected := false, status := 200, body := 0 })

/-- C2 witness: with two queued records where one replay rejects and the
other fulfills, the drained store holds exactly the failed record, and both
replays were issued with the records' reconstructed fields. -/
theorem retry_requests_drain_witness :
    ([rec_fail, rec_ok].map QueuedRequest.timestamp).Nodup ∧
      (retry_requests demo_net [rec_fail, rec_ok]).issued =
        [replay_request_of rec_fail, replay_request_of rec_ok] ∧
      (retry_requests demo_net [rec_fail, rec_ok]).store = [rec_fail] := by
  have h := retry_requests_drain demo_net [rec_fail, rec_ok] (by decide)
  refine ⟨by decide, h.1, ?_⟩
  rw [h.2]
  decide

/-- C9: the retry engine deletes a record whenever its replay promise
fulfills, whatever the HTTP status of the returned response is, so a replay
answered with a 4xx or 5xx response is removed like a successful one. -/
theorem retry_deletes_fulfilled_any_status (net : RequestInfo → FetchOutcome)
    (st : List QueuedRequest) (q : QueuedRequest)
    (hts : (st.map QueuedRequest.timestamp).Nodup) (_hq : q ∈ st)
    (resp : Option WebResponse)
    (hr : net (replay_request_of q) = FetchOutcome.fulfilled resp) :
    q ∉ (retry_requests net st).store := by
  rw [retry_store_eq net st hts]
  intro hmem
  have hp := List.of_mem_filter hmem
  rw [hr] at hp
  simp [is_fulfilled] at hp

/-- A replay oracle answering every request with an HTTP 500 response. -/
def server_error_net (_ : RequestInfo) : FetchOutcome :=
  FetchOutcome.fulfilled (some { redirected := false, status := 500, body := 0 })

/-- C9 witness: a record replayed into an HTTP 500 response is nonetheless
removed from the store. -/
theorem retry_deletes_fulfilled_witness :
    ([rec_ok].map QueuedRequest.timestamp).Nodup ∧ rec_ok ∈ [rec_ok] ∧
      server_error_net (replay_request_of rec_ok) =
        FetchOutcome.fulfilled
          (some { redirected := false, status := 500, body := 0 }) ∧
      rec_ok ∉ (retry_requests server_error_net [rec_ok]).store := by
  refine ⟨by decide, by decide, rfl, ?_⟩
  exact retry_deletes_fulfilled_any_status server_error_net [rec_ok] rec_ok
    (by decide) (by decide)
    (some { redirected := false, status := 500, body := 0 }) rfl

/-- C3: durability invariant. First, an eligible request intercepted while
offline is persisted: the interceptor's resulting store contains the new
record. Second, a drain never drops a record whose replay did not fulfill:
it stays queued for the next drain. Together with C2 (only fulfilled records
are removed), a record lives from classification until a replay succeeds. -/
theorem offline_request_durability :
    (∀ (req : RequestInfo) (cacheLookup : RequestInfo → Option WebResponse)
        (pageLookup : String → Option WebResponse) (net : FetchOutcome)
        (now : Nat) (st : List QueuedRequest),
        is_request_eligible_for_retry req.url req.method = true →
        queued_record now req ∈
          (fetch_handler true req cacheLookup pageLookup net now st).store) ∧
      (∀ (net : RequestInfo → FetchOutcome) (st : List QueuedRequest)
          (q : QueuedRequest),
          (st.map QueuedRequest.timestamp).Nodup → q ∈ st →
          is_fulfilled (net (replay_request_of q)) = false →
          q ∈ (retry_requests net st).store) := by
  constructor
  · intro req cacheLookup pageLookup net now st helig
    simp [fetch_handler, helig, store_request]
  · intro net st q hts hq hfail
    rw [retry_store_eq net st hts]
    exact List.mem_filter.mpr ⟨hq, by simp [hfail]⟩

/-- C3 witness: the offline POST is persisted by the interceptor, and the
record whose replay rejected survives the drain. -/
theorem offline_request_durability_witness :
    queued_record 7 demo_post ∈
        (fetch_handler true demo_post (fun _ => none) (fun _ => none)
          FetchOutcome.rejected 7 []).store ∧
      rec_fail ∈ (retry_requests demo_net [rec_fail, rec_ok]).store := by
  constructor
  · exact offline_request_durability.1 demo_post (fun _ => none) (fun _ => none)
      FetchOutcome.rejected 7 [] (by decide)
  · exact offline_request_durability.2 demo_net [rec_fail, rec_ok] rec_fail
      (by decide) (by decide) (by decide)

/-- The outcome of `Promise.all([cache.addAll(...), create_indexed_db(...)])`
inside the install handler: it fulfills only when both the bulk cache
population and the record-store schema initialisation succeed. -/
def install_all_result (popOk idbOk : Bool) : Except Unit Unit :=
  if popOk && idbOk then Except.ok () else Except.error ()

/-- The promise handed to `e.waitUntil` by the install handler: the trailing
catch swallows any rejection, so it always fulfills. -/
def install_settled (popOk idbOk : Bool) : Except Unit Unit :=
  match install_all_result popOk idbOk with
  | Except.ok u => Except.ok u
  | Except.error _ => Except.ok ()

/-- Model of `caches.open` creating the named cache when absent, as the
install handler's open does before populating. -/
def ensure_cache (cs : CacheStorage) (n : String) : CacheStorage :=
  if (cache_keys cs).contains n then cs else { snaps := cs.snaps ++ [(n, [])] }

/-- Model of `cache.addAll` fetching every listed file from the origin and
storing each response. -/
def add_all (c : Snapshot) (origin : String → Nat) (files : List String) :
    Snapshot :=
  files.foldl (fun acc f => cache_put acc f (origin f)) c

/-- Replace the snapshot stored under a name. -/
def set_snapshot (cs : CacheStorage) (n : String) (s : Snapshot) : CacheStorage :=
  { snaps := cs.snaps.map (fun p => if p.1 == n then (n, s) else p) }

/-- Embeds the cache side of `install_handler`: open (and thereby create)
the current cache, then bulk-populate it when the population succeeds; a
failed population leaves no entries from this call. -/
def install_handler (popOk : Bool) (origin : String → Nat)
    (cs : CacheStorage) : CacheStorage :=
  let cs1 := ensure_cache cs cache_name
  if popOk then
    set_snapshot cs1 cache_name (add_all (cache_open cs1 cache_name) origin files_to_cache)
  else cs1

/-- Embeds the schema side of `create_indexed_db`: on success the request
store's schema exists afterwards, on failure it is left as it was. -/
def create_indexed_db_result (idbOk schemaReady : Bool) : Bool :=
  if idbOk then true else schemaReady

/-- Looking up keys not in the added file list is unchanged by `add_all`. -/
theorem add_all_not_mem (c : Snapshot) (origin : String → Nat)
    (files : List String) (f : String) (h : f ∉ files) :
    cache_match (add_all c origin files) f = cache_match c f := by
  induction files generalizing c with
  | nil => rfl
  | cons k ks ih =>
      have hk : f ≠ k := by
        intro he
        exact h (by rw [he]; exact List.mem_cons_self k ks)
      have hks : f ∉ ks := fun hm => h (List.mem_cons_of_mem k hm)
      show cache_match (add_all (cache_put c k (origin k)) origin ks) f = _
      rw [ih _ hks, cache_match_put_other c k f (origin k) hk]

/-- Every file in the added list ends up cached with the origin's response. -/
theorem add_all_mem (c : Snapshot) (origin : String → Nat)
    (files : List String) (f : String) (h : f ∈ files) :
    cache_match (add_all c origin files) f = some (origin f) := by
  induction files generalizing c with
  | nil => cases h
  | cons k ks ih =>
      show cache_match (add_all (cache_put c k (origin k)) origin ks) f = _
      by_cases hks : f ∈ ks
      · exact ih _ hks
      · have hfk : f = k := by
          rcases List.mem_cons.mp h with h1 | h1
          · exact h1
          · exact absurd h1 hks
        subst hfk
        rw [add_all_not_mem _ origin ks f hks, cache_match_put_self]

/-- The opened-or-created cache name is present afterwards. -/
theorem mem_keys_ensure_cache (cs : CacheStorage) (n : String) :
    n ∈ cache_keys (ensure_cache cs n) := by
  unfold ensure_cache
  by_cases hc : (cache_keys cs).contains n = true
  · rw [if_pos hc]
    simpa using hc
  · rw [if_neg hc]
    simp [cache_keys]

/-- Replacing a present snapshot makes it the one found under that name. -/
theorem snap_find_set (snaps : List (String × Snapshot)) (n : String)
    (s : Snapshot) (h : n ∈ snaps.map Prod.fst) :
    snap_find (snaps.map (fun p => if p.1 == n then (n, s) else p)) n = some s := by
  induction snaps with
  | nil => cases h
  | cons p t ih =>
      simp only [List.map_cons] at h
      cases hb : (p.1 == n) with
      | true =>
          have hhead : (if p.1 == n then ((n : String), s) else p) = (n, s) :=
            if_pos hb
          simp only [List.map_cons, snap_find, List.find?_cons, hhead]
          simp
      | false =>
          have hhead : (if p.1 == n then ((n : String), s) else p) = p :=
            if_neg (by simp [hb])
          have hm : n ∈ t.map Prod.fst := by
            rcases List.mem_cons.mp h with h1 | h1
            · rw [h1] at hb
              simp at hb
            · exact h1
          simp only [List.map_cons, snap_find, List.find?_cons, hhead]
          rw [hb]
          exact ih hm

/-- Opening a present name after `set_snapshot` yields the new snapshot. -/
theorem cache_open_set_snapshot (cs : CacheStorage) (n : String) (s : Snapshot)
    (h : n ∈ cache_keys cs) : cache_open (set_snapshot cs n s) n = s := by
  unfold cache_open set_snapshot
  rw [snap_find_set cs.snaps n s h]
  rfl

/-- Model of `caches.match(request)` against the current cache of a storage:
the stored payload for the request's url, delivered as a plain 200
response. -/
def storage_lookup (cs : CacheStorage) (r : RequestInfo) : Option WebResponse :=
  (cache_match (cache_open cs cache_name) r.url).map
    (fun b => { redirected := false, status := 200, body := b })

/-- A concrete GET request for a precached file. -/
def demo_index : RequestInfo :=
  { url := "/index.html", method := "GET", body := none, headers := [],
    mode := "cors", credentials := "same-origin" }

/-- C7 counterexample: with bulk population succeeding and the record-store
schema initialisation failing, the combined install operation fails, yet
every listed file is committed to the current cache and the interceptor
serves the precached /index.html from cache without touching the network —
the snapshot is installed and the process does not fall back to
live-network-only behaviour. -/
theorem install_idb_failure_counterexample :
    install_all_result true false = Except.error () ∧
      files_to_cache.all (fun f =>
        (cache_match
          (cache_open (install_handler true (fun _ => 5) { snaps := [] }) cache_name)
          f).isSome) = true ∧
      (fetch_handler false demo_index
          (storage_lookup (install_handler true (fun _ => 5) { snaps := [] }))
          (fun _ => none) FetchOutcome.rejected 0 []).usedNetwork = false ∧
      (fetch_handler false demo_index
          (storage_lookup (install_handler true (fun _ => 5) { snaps := [] }))
          (fun _ => none) FetchOutcome.rejected 0 []).response =
        some { redirected := false, status := 200, body := 5 } := by
  refine ⟨rfl, by decide, by decide, by decide⟩

/-- C7 amended: an install failure of either kind is swallowed (the
waitUntil promise fulfills although the combined operation failed), but the
two failure modes differ. A failed bulk population stores no snapshot
entries — from an empty start the current cache stays empty and, nothing
being cached, interception passes requests through to the live network. A
failed schema initialisation alone leaves the schema absent, yet the
already-populated snapshot remains committed with every listed file and the
interceptor serves those files from cache without using the network. -/
theorem install_failure_modes (popOk idbOk : Bool) (origin : String → Nat)
    (cs : CacheStorage) (schemaReady : Bool)
    (hfail : popOk = false ∨ idbOk = false) :
    install_all_result popOk idbOk = Except.error () ∧
      install_settled popOk idbOk = Except.ok () ∧
      (popOk = false → install_handler popOk origin cs = ensure_cache cs cache_name) ∧
      (popOk = false →
        cache_open (install_handler popOk origin { snaps := [] }) cache_name = []) ∧
      (idbOk = false → create_indexed_db_result idbOk schemaReady = schemaReady) ∧
      (popOk = true → ∀ f ∈ files_to_cache,
        cache_match (cache_open (install_handler popOk origin cs) cache_name) f =
          some (origin f)) ∧
      (∀ (req : RequestInfo) (pageLookup : String → Option WebResponse)
          (r : WebResponse) (now : Nat) (st : List QueuedRequest),
          fetch_handler false req (fun _ => none) pageLookup
              (FetchOutcome.fulfilled (some r)) now st =
            { response := some r, store := st, usedNetwork := true }) ∧
      (popOk = true → ∀ (req : RequestInfo)
          (pageLookup : String → Option WebResponse) (net : FetchOutcome)
          (now : Nat) (st : List QueuedRequest), req.url ∈ files_to_cache →
          (fetch_handler false req
              (storage_lookup (install_handler popOk origin cs)) pageLookup
              net now st).response =
              some { redirected := false, status := 200, body := origin req.url } ∧
            (fetch_handler false req
              (storage_lookup (install_handler popOk origin cs)) pageLookup
              net now st).usedNetwork = false) := by
  have hand : (popOk && idbOk) = false := by
    rcases hfail with h | h <;> simp [h]
  have hpop : popOk = true →
      ∀ f ∈ files_to_cache,
        cache_match (cache_open (install_handler popOk origin cs) cache_name) f =
          some (origin f) := by
    intro hp f hf
    simp only [install_handler, hp, if_pos]
    rw [cache_open_set_snapshot _ _ _ (mem_keys_ensure_cache cs cache_name)]
    exact add_all_mem _ origin files_to_cache f hf
  refine ⟨?_, ?_, ?_, ?_, ?_, hpop, ?_, ?_⟩
  · simp [install_all_result, hand]
  · simp [install_settled, install_all_result, hand]
  · intro hp
    simp [install_handler, hp]
  · intro hp
    simp [install_handler, hp, ensure_cache, cache_keys, cache_open, snap_find]
  · intro hi
    simp [create_indexed_db_result, hi]
  · intro req pageLookup r now st
    simp [fetch_handler]
  · intro hp req pageLookup net now st hurl
    have hlook : storage_lookup (install_handler popOk origin cs) req =
        some { redirected := false, status := 200, body := origin req.url } := by
      unfold storage_lookup
      rw [hpop hp req.url hurl]
      rfl
    constructor <;> simp [fetch_handler, hlook]

/-- C7 amended witness: population succeeds but the schema initialisation
fails; the failure is swallowed, the precached /index.html is served from
the committed snapshot with no network use, and the schema stays absent. -/
theorem install_failure_modes_witness :
    install_all_result true false = Except.error () ∧
      install_settled true false = Except.ok () ∧
      create_indexed_db_result false false = false ∧
      cache_match
          (cache_open (install_handler true (fun _ => 5) { snaps := [] }) cache_name)
          ("/index.html") = some 5 ∧
      (fetch_handler false demo_index
          (storage_lookup (install_handler true (fun _ => 5) { snaps := [] }))
          (fun _ => none) FetchOutcome.rejected 0 []).usedNetwork = false := by
  have h := install_failure_modes true false (fun _ => 5) { snaps := [] } false
    (Or.inr rfl)
  refine ⟨h.1, h.2.1, h.2.2.2.2.1 rfl, ?_, ?_⟩
  · exact h.2.2.2.2.2.1 rfl ("/index.html") (by decide)
  · exact (h.2.2.2.2.2.2.2 rfl demo_index (fun _ => none) FetchOutcome.rejected
      0 [] (by decide)).2

end SW
